import Mathlib

/-!
Shallow embedding of the battle-simulation core of the MCP_pokemon repository
(`battle_simulator.py`, `pokemon_data_manager.py`, `pokemon_models.py`).

Python floats are modelled by `ℚ` (the float arithmetic here is small-magnitude
and the spec treats it as real arithmetic), Python ints by `ℤ`, and the global
random source by an explicit stream `rand : ℕ → ℚ` together with a counter that
is advanced exactly when the Python code calls `random.random()` /
`random.uniform` (one draw per call; `random.uniform 0.9 1.1` is
`0.9 + 0.2 * random.random()`).  Python's `int(x)` truncates toward zero, which
is `pyInt` below; `x // n` is floor division, `Int.fdiv`.  Python's `str.lower`
and the single-character `str.replace` act characterwise, hence `pyLower` and
the charwise replacement in `parseMoveName`.
-/

namespace PokeBattle

/-- `StatusEffect` enum of `pokemon_models.py`. -/
inductive StatusEffect where
  | NONE
  | POISON
  | BURN
  | PARALYSIS
deriving DecidableEq

/-- The `.value` strings of the Python enum members. -/
def StatusEffect.value : StatusEffect → String
  | .NONE => "Healthy"
  | .POISON => "Poisoned"
  | .BURN => "Burned"
  | .PARALYSIS => "Paralyzed"

/-- `Move` dataclass of `pokemon_models.py`. -/
structure Move where
  name : String
  type : String
  category : String
  power : Option ℤ
  accuracy : Option ℤ
  effect : String
deriving DecidableEq

/-- `PokemonStats` dataclass of `pokemon_models.py`. -/
structure PokemonStats where
  hp : ℤ
  attack : ℤ
  defense : ℤ
  special_attack : ℤ
  special_defense : ℤ
  speed : ℤ
deriving DecidableEq

/-- `Pokemon` dataclass of `pokemon_models.py`. -/
structure Pokemon where
  id : ℤ
  name : String
  types : List String
  stats : PokemonStats
  abilities : List String
  moves_sample : List Move
  evolution_paths : List String
  flavor_text : String
  ev_yield : String
  sprite_url : Option String
deriving DecidableEq

/-- `BattlePokemon` dataclass of `pokemon_models.py`. -/
structure BattlePokemon where
  pokemon : Pokemon
  current_hp : ℤ
  current_energy : ℤ
  status : StatusEffect := StatusEffect.NONE
deriving DecidableEq

/-- The global random source: one rational per call to `random.random()`.
A real execution has every draw in `[0, 1)`; no claim below needs that bound,
so the stream is unconstrained. -/
structure RandStream where
  rand : ℕ → ℚ

/-- Python `str.lower()` (characterwise, as for ASCII). -/
def pyLower (s : String) : String := ⟨s.data.map Char.toLower⟩

/-- Python `str.capitalize()`: first character uppercased, the rest lowercased. -/
def pyCapitalize (s : String) : String :=
  match s.data with
  | [] => ""
  | c :: rest => ⟨c.toUpper :: rest.map Char.toLower⟩

/-- Python `int(x)` on a nonnegative-or-negative real: truncation toward zero. -/
def pyInt (q : ℚ) : ℤ := if q < 0 then ⌈q⌉ else ⌊q⌋

/-- `random.uniform(0.9, 1.1)` applied to one draw `x` of `random.random()`. -/
def uniformDraw (x : ℚ) : ℚ := 9/10 + (11/10 - 9/10) * x

/-- The type chart built in `PokemonDataManager.__init__`
(`pokemon_data_manager.py`, lines 18–37), keyed first by defending type,
then by attacking type, exactly as in the source. -/
def type_chart : List (String × List (String × ℚ)) :=
  [("normal", [("fighting", 2), ("ghost", 0)]),
   ("fighting", [("flying", 2), ("rock", 1/2), ("bug", 1/2), ("psychic", 2), ("dark", 1/2), ("fairy", 2)]),
   ("flying", [("rock", 2), ("bug", 1/2), ("grass", 1/2), ("electric", 2), ("ice", 2), ("fighting", 1/2), ("ground", 0)]),
   ("poison", [("fighting", 1/2), ("poison", 1/2), ("ground", 2), ("bug", 1/2), ("grass", 1/2), ("psychic", 2), ("fairy", 1/2)]),
   ("ground", [("water", 2), ("grass", 2), ("ice", 2), ("poison", 1/2), ("rock", 1/2), ("electric", 0)]),
   ("rock", [("fighting", 2), ("ground", 2), ("steel", 2), ("water", 2), ("grass", 2), ("normal", 1/2), ("flying", 1/2), ("poison", 1/2), ("fire", 1/2)]),
   ("bug", [("flying", 2), ("rock", 2), ("fire", 2), ("fighting", 1/2), ("ground", 1/2), ("grass", 1/2)]),
   ("ghost", [("ghost", 2), ("dark", 2), ("normal", 0), ("fighting", 0), ("poison", 1/2), ("bug", 1/2)]),
   ("steel", [("fighting", 2), ("ground", 2), ("fire", 2), ("normal", 1/2), ("flying", 1/2), ("rock", 1/2), ("bug", 1/2), ("steel", 1/2), ("grass", 1/2), ("psychic", 1/2), ("ice", 1/2), ("dragon", 1/2), ("fairy", 1/2), ("poison", 0)]),
   ("fire", [("ground", 2), ("rock", 2), ("water", 2), ("bug", 1/2), ("steel", 1/2), ("fire", 1/2), ("grass", 1/2), ("ice", 1/2), ("fairy", 1/2)]),
   ("water", [("grass", 2), ("electric", 2), ("steel", 1/2), ("fire", 1/2), ("water", 1/2), ("ice", 1/2)]),
   ("grass", [("flying", 2), ("poison", 2), ("bug", 2), ("fire", 2), ("ice", 2), ("ground", 1/2), ("water", 1/2), ("grass", 1/2), ("electric", 1/2)]),
   ("electric", [("ground", 2), ("flying", 1/2), ("steel", 1/2), ("electric", 1/2)]),
   ("psychic", [("bug", 2), ("ghost", 2), ("dark", 2), ("fighting", 1/2), ("psychic", 1/2)]),
   ("ice", [("fighting", 2), ("rock", 2), ("steel", 2), ("fire", 2), ("ice", 1/2)]),
   ("dragon", [("ice", 2), ("dragon", 2), ("fairy", 2), ("fire", 1/2), ("water", 1/2), ("grass", 1/2), ("electric", 1/2)]),
   ("dark", [("fighting", 2), ("bug", 2), ("fairy", 2), ("ghost", 1/2), ("dark", 1/2), ("psychic", 0)]),
   ("fairy", [("poison", 2), ("steel", 2), ("fighting", 1/2), ("bug", 1/2), ("dark", 1/2), ("dragon", 0)])]

/-- Nested dictionary lookup `type_chart[target_type][move_type]`, `none` when
either key is missing (the Python `in` guards). -/
def chartLookup (target_type move_type : String) : Option ℚ :=
  match type_chart.find? (fun p => p.1 = target_type) with
  | none => none
  | some row => (row.2.find? (fun p => p.1 = move_type)).map Prod.snd

/-- `PokemonDataManager.get_type_effectiveness` (lines 39–47): starts from
multiplier `1.0` and multiplies in the table entry for every defending type
that has one. -/
def get_type_effectiveness (move_type : String) (target_types : List String) : ℚ :=
  target_types.foldl (fun multiplier t =>
    match chartLookup (pyLower t) (pyLower move_type) with
    | some v => multiplier * v
    | none => multiplier) 1

/-- `BattleSimulator._calculate_damage` (lines 16–49) with the
`random.uniform(0.9, 1.1)` value passed in as `random_factor`. -/
def _calculate_damage (attacker defender : BattlePokemon) (move : Move)
    (random_factor : ℚ) : ℤ × String :=
  if move.power = none ∨ move.power = some 0 then (0, "")
  else
    let attack_stat : ℚ :=
      if move.category = "physical" then (attacker.pokemon.stats.attack : ℚ)
      else (attacker.pokemon.stats.special_attack : ℚ)
    let defense_stat : ℚ :=
      if move.category = "physical" then (defender.pokemon.stats.defense : ℚ)
      else (defender.pokemon.stats.special_defense : ℚ)
    let attack_stat :=
      if attacker.status = StatusEffect.BURN ∧ move.category = "physical"
      then attack_stat / 2 else attack_stat
    let target_types := defender.pokemon.types.map pyLower
    let effectiveness_multiplier := get_type_effectiveness move.type target_types
    let base_damage := ((move.power.getD 0 : ℚ) * (attack_stat / (defense_stat + 50))) * (3/2)
    let final_damage := pyInt (base_damage * effectiveness_multiplier * random_factor)
    let effectiveness_text :=
      if effectiveness_multiplier > 1 then "It\x27s super effective!"
      else if effectiveness_multiplier < 1 then "It\x27s not very effective..."
      else ""
    (max 1 final_damage, effectiveness_text)

/-- `BattleSimulator._get_move_energy_cost` (lines 51–56).  `not move.power`
is true in Python exactly when the power is `None` or `0`. -/
def _get_move_energy_cost (move : Move) : ℤ :=
  match move.power with
  | none => 10
  | some p => if p = 0 ∨ p < 40 then 10 else if p < 70 then 20 else if p < 100 then 30 else 40

/-- Number of `random.random()` draws one `_calculate_damage` call consumes:
none on the non-damaging early return, one (`random.uniform`) otherwise. -/
def damageDraws (move : Move) : ℕ :=
  if move.power = none ∨ move.power = some 0 then 0 else 1

/-- `_calculate_damage` with the random counter threaded through. -/
def calcDamageS (s : RandStream) (k : ℕ) (attacker defender : BattlePokemon)
    (move : Move) : (ℤ × String) × ℕ :=
  (_calculate_damage attacker defender move (uniformDraw (s.rand k)), k + damageDraws move)

/-- The sacrificial-move names filtered out by `_select_move` (line 60). -/
def sacrificial_moves : List String := ["self-destruct", "explosion", "final-gambit"]

/-- The candidate list built inside `_select_move` (lines 62–66). -/
def usable_moves (attacker : BattlePokemon) : List Move :=
  attacker.pokemon.moves_sample.filter (fun m =>
    decide (_get_move_energy_cost m ≤ attacker.current_energy ∧
      pyLower m.name ∉ sacrificial_moves))

/-- One iteration of the best-move loop of `_select_move` (lines 72–76);
the accumulator is `(best_move, max_damage, random counter)`. -/
def selStep (s : RandStream) (attacker opponent : BattlePokemon)
    (acc : Move × ℤ × ℕ) (m : Move) : Move × ℤ × ℕ :=
  let d := calcDamageS s acc.2.2 attacker opponent m
  if d.1.1 > acc.2.1 then (m, d.1.1, d.2) else (acc.1, acc.2.1, d.2)

/-- `BattleSimulator._select_move` (lines 58–77), returning the chosen move
together with the advanced random counter. -/
def _select_move (s : RandStream) (k : ℕ) (attacker opponent : BattlePokemon) :
    Option Move × ℕ :=
  match usable_moves attacker with
  | [] => (none, k)
  | first :: rest =>
    let r := (first :: rest).foldl (selStep s attacker opponent) (first, 0, k)
    (some r.1, r.2.2)

/-- `BattleSimulator._apply_status_effect` (lines 79–95): message, updated
defender, advanced random counter. -/
def _apply_status_effect (s : RandStream) (k : ℕ) (move : Move)
    (defender : BattlePokemon) : Option String × BattlePokemon × ℕ :=
  if defender.status ≠ StatusEffect.NONE then (none, defender, k)
  else if pyLower move.type = "poison" then
    if s.rand k < 3/10 then
      (some (defender.pokemon.name ++ " was poisoned!"),
       { defender with status := StatusEffect.POISON }, k + 1)
    else (none, defender, k + 1)
  else if pyLower move.type = "fire" then
    if s.rand k < 1/10 then
      (some (defender.pokemon.name ++ " was burned!"),
       { defender with status := StatusEffect.BURN }, k + 1)
    else (none, defender, k + 1)
  else if pyLower move.type = "electric" then
    if s.rand k < 1/10 then
      (some (defender.pokemon.name ++ " was paralyzed!"),
       { defender with status := StatusEffect.PARALYSIS }, k + 1)
    else (none, defender, k + 1)
  else (none, defender, k)

/-- `BattleSimulator._handle_pre_turn_status` (lines 97–103): whether the
combatant can move, the extended log, the advanced random counter. -/
def _handle_pre_turn_status (s : RandStream) (k : ℕ) (pokemon : BattlePokemon)
    (log : List String) : Bool × List String × ℕ :=
  if pokemon.status = StatusEffect.PARALYSIS then
    if s.rand k < 1/4 then
      (false, log ++ [pokemon.pokemon.name ++ " is paralyzed! It can\x27t move!"], k + 1)
    else (true, log, k + 1)
  else (true, log, k)

/-- `BattleSimulator._handle_post_turn_status` (lines 105–114). -/
def _handle_post_turn_status (pokemon : BattlePokemon) (log : List String) :
    BattlePokemon × List String :=
  if pokemon.status = StatusEffect.POISON then
    let damage := max 1 (Int.fdiv pokemon.pokemon.stats.hp 8)
    ({ pokemon with current_hp := max 0 (pokemon.current_hp - damage) },
     log ++ [pokemon.pokemon.name ++ " is hurt by poison! [-" ++ toString damage ++ " HP]"])
  else if pokemon.status = StatusEffect.BURN then
    let damage := max 1 (Int.fdiv pokemon.pokemon.stats.hp 16)
    ({ pokemon with current_hp := max 0 (pokemon.current_hp - damage) },
     log ++ [pokemon.pokemon.name ++ " is hurt by its burn! [-" ++ toString damage ++ " HP]"])
  else (pokemon, log)

/-- The mutable state of one `run_simulation` call: the two `BattlePokemon`,
the log list, the random counter, and the `turn` counter. -/
structure SimState where
  p1 : BattlePokemon
  p2 : BattlePokemon
  log : List String
  k : ℕ
  turn : ℕ
deriving DecidableEq

/-- Select a combatant: `true` is `p1`, `false` is `p2`. -/
def sideGet (st : SimState) (b : Bool) : BattlePokemon :=
  if b then st.p1 else st.p2

/-- Write back a combatant on the given side. -/
def sideSet (st : SimState) (b : Bool) (p : BattlePokemon) : SimState :=
  if b then { st with p1 := p } else { st with p2 := p }

/-- Resting (lines 143–144): energy `+50`, capped at `100`. -/
def restAction (p : BattlePokemon) : BattlePokemon :=
  { p with current_energy := min 100 (p.current_energy + 50) }

/-- Energy deduction of line 148 (no clamping in the source). -/
def spendEnergy (p : BattlePokemon) (cost : ℤ) : BattlePokemon :=
  { p with current_energy := p.current_energy - cost }

/-- Damage application of line 151: hp floored at 0. -/
def applyDamage (p : BattlePokemon) (damage : ℤ) : BattlePokemon :=
  { p with current_hp := max 0 (p.current_hp - damage) }

/-- The self-KO names checked at line 155. -/
def selfKONames : List String := ["self-destruct", "explosion"]

/-- The Rest branch of the inner loop (lines 142–145). -/
def restStep (st : SimState) (atkSide : Bool) (log1 : List String) (k2 : ℕ) :
    SimState × Bool :=
  (sideSet { st with
      log := log1 ++ [(sideGet st atkSide).pokemon.name ++
        " is low on energy and Rests! [+50 Energy]"],
      k := k2 }
    atkSide (restAction (sideGet st atkSide)), false)

/-- The attack branch of the inner loop (lines 147–164): energy deduction,
damage, self-KO check, on-hit status roll, faint check.  The returned flag is
the `break` of line 164. -/
def attackStep (s : RandStream) (st : SimState) (atkSide : Bool)
    (log1 : List String) (k2 : ℕ) (mv : Move) : SimState × Bool :=
  let atk1 := spendEnergy (sideGet st atkSide) (_get_move_energy_cost mv)
  let dres := calcDamageS s k2 atk1 (sideGet st (!atkSide)) mv
  let dfn1 := applyDamage (sideGet st (!atkSide)) dres.1.1
  let log2 := log1 ++ [(sideGet st atkSide).pokemon.name ++ " used " ++ mv.name ++
    "! It dealt " ++ toString dres.1.1 ++ " damage. " ++ dres.1.2]
  let atk2 := if pyLower mv.name ∈ selfKONames then { atk1 with current_hp := 0 } else atk1
  let log3 := if pyLower mv.name ∈ selfKONames then
      log2 ++ [(sideGet st atkSide).pokemon.name ++ " fainted after using its move!"]
    else log2
  let stres := _apply_status_effect s dres.2 mv dfn1
  let log4 := match stres.1 with
    | some msg => log3 ++ [msg]
    | none => log3
  let st1 := sideSet (sideSet { st with log := log4, k := stres.2.2 } atkSide atk2)
    (!atkSide) stres.2.1
  if stres.2.1.current_hp ≤ 0 then
    ({ st1 with log := st1.log ++ [stres.2.1.pokemon.name ++ " has fainted!"] }, true)
  else (st1, false)

/-- One iteration of the inner `for current_attacker, current_defender` loop
(lines 135–164).  The flag is `true` when the loop would `break`. -/
def doAction (s : RandStream) (st : SimState) (atkSide : Bool) : SimState × Bool :=
  if (sideGet st atkSide).current_hp ≤ 0 then (st, false)
  else
    match _handle_pre_turn_status s st.k (sideGet st atkSide) st.log with
    | (false, log1, k1) => ({ st with log := log1, k := k1 }, false)
    | (true, log1, k1) =>
      match _select_move s k1 (sideGet st atkSide) (sideGet st (!atkSide)) with
      | (none, k2) => restStep st atkSide log1 k2
      | (some mv, k2) => attackStep s st atkSide log1 k2 mv

/-- Speed comparison of lines 128–131: `true` when `p1` acts first
(`>=`, so ties favor `p1`). -/
def roundFirstIsP1 (p1 p2 : BattlePokemon) : Bool :=
  decide ((p1.pokemon.stats.speed : ℚ) *
      (if p1.status = StatusEffect.PARALYSIS then 1/2 else 1) ≥
    (p2.pokemon.stats.speed : ℚ) *
      (if p2.status = StatusEffect.PARALYSIS then 1/2 else 1))

/-- The status line logged at line 133. -/
def statusLineOf (p1 p2 : BattlePokemon) : String :=
  "(" ++ p1.pokemon.name ++ ": " ++ toString p1.current_hp ++ " HP, " ++
    toString p1.current_energy ++ " E, " ++ p1.status.value ++ ") vs (" ++
    p2.pokemon.name ++ ": " ++ toString p2.current_hp ++ " HP, " ++
    toString p2.current_energy ++ " E, " ++ p2.status.value ++ ")"

/-- End-of-round status ticks (lines 166–170): tick `p1`, log its faint,
then tick `p2`, log its faint. -/
def postTurnPhase (st : SimState) : SimState :=
  let r1 := _handle_post_turn_status st.p1 st.log
  let log1 := if r1.1.current_hp ≤ 0 then r1.2 ++ [r1.1.pokemon.name ++ " has fainted!"] else r1.2
  let r2 := _handle_post_turn_status st.p2 log1
  let log2 := if r2.1.current_hp ≤ 0 then r2.2 ++ [r2.1.pokemon.name ++ " has fainted!"] else r2.2
  { st with p1 := r1.1, p2 := r2.1, log := log2 }

/-- Turn increment and the two header log lines (lines 125–133). -/
def roundIntro (st : SimState) : SimState :=
  { st with
    turn := st.turn + 1,
    log := st.log ++ ["--- Turn " ++ toString (st.turn + 1) ++ " ---",
      statusLineOf st.p1 st.p2] }

/-- The two-combatant inner loop (lines 135–164): the second action is
skipped when the first one reported a `break`. -/
def roundActions (s : RandStream) (st : SimState) (first : Bool) : SimState :=
  let r1 := doAction s st first
  if r1.2 then r1.1 else (doAction s r1.1 (!first)).1

/-- The post-turn phase guard of line 166. -/
def roundEnd (st : SimState) : SimState :=
  if 0 < st.p1.current_hp ∧ 0 < st.p2.current_hp then postTurnPhase st else st

/-- One iteration of the `while` body (lines 124–172). -/
def doRound (s : RandStream) (st : SimState) : SimState :=
  let stC := roundEnd (roundActions s (roundIntro st) (roundFirstIsP1 st.p1 st.p2))
  { stC with log := stC.log ++ [""] }

/-- The `while p1.current_hp > 0 and p2.current_hp > 0 and turn < 50` loop
(line 124).  The fuel argument only bounds the recursion; with fuel `50` and
an initial `turn` of `0` it can never run out before the `turn < 50` test
fails, so `simLoop s 50` is exactly the Python loop. -/
def simLoop (s : RandStream) : ℕ → SimState → SimState
  | 0, st => st
  | fuel + 1, st =>
    if 0 < st.p1.current_hp ∧ 0 < st.p2.current_hp ∧ st.turn < 50 then
      simLoop s fuel (doRound s st)
    else st

/-- The `Setup` state of lines 118–122. -/
def initState (p1_data p2_data : Pokemon) : SimState :=
  { p1 := { pokemon := p1_data, current_hp := p1_data.stats.hp, current_energy := 100 },
    p2 := { pokemon := p2_data, current_hp := p2_data.stats.hp, current_energy := 100 },
    log := ["A battle is about to begin between " ++ p1_data.name ++ " and " ++
      p2_data.name ++ "!", ""],
    k := 0,
    turn := 0 }

/-- The state after the battle loop of one `run_simulation` call. -/
def final_state (s : RandStream) (p1_data p2_data : Pokemon) : SimState :=
  simLoop s 50 (initState p1_data p2_data)

/-- The verdict computation of lines 175–177. -/
def winner_of_state (st : SimState) : String :=
  if 0 < st.p1.current_hp ∧ st.p2.current_hp ≤ 0 then st.p1.pokemon.name
  else if 0 < st.p2.current_hp ∧ st.p1.current_hp ≤ 0 then st.p2.pokemon.name
  else "Draw"

/-- One 20-cell hp bar of lines 181–182.  Python's `'c' * n` is empty for
negative `n`, hence `Int.toNat`. -/
def hpBar (cur base : ℤ) : String :=
  let n := pyInt ((cur : ℚ) / (base : ℚ) * 20)
  String.mk (List.replicate n.toNat '█') ++ String.mk (List.replicate (20 - n).toNat '-')

/-- The final battle-state block of lines 183–185. -/
def finalBlock (st : SimState) : List String :=
  ["\n---\n**Final Battle State:**",
   "**" ++ st.p1.pokemon.name ++ ":**\n[" ++
     hpBar st.p1.current_hp st.p1.pokemon.stats.hp ++ "] " ++
     toString st.p1.current_hp ++ "/" ++ toString st.p1.pokemon.stats.hp ++
     " HP\nEnergy Remaining: " ++ toString st.p1.current_energy ++ "/100",
   "\n**" ++ st.p2.pokemon.name ++ ":**\n[" ++
     hpBar st.p2.current_hp st.p2.pokemon.stats.hp ++ "] " ++
     toString st.p2.current_hp ++ "/" ++ toString st.p2.pokemon.stats.hp ++
     " HP\nEnergy Remaining: " ++ toString st.p2.current_energy ++ "/100"]

/-- `BattleSimulator.run_simulation` (lines 116–187). -/
def run_simulation (s : RandStream) (p1_data p2_data : Pokemon) : String :=
  let st := final_state s p1_data p2_data
  String.intercalate "\n" (st.log ++
    ["--- Battle Over! ---", "The winner is: " ++ winner_of_state st ++ "!"] ++
    finalBlock st)

/-- The move-name transformation of `_fetch_and_parse_moves`
(`pokemon_data_manager.py`, line 78): `capitalize()` then `replace('-', ' ')`
(characterwise, the pattern being a single character). -/
def parseMoveName (raw : String) : String :=
  ⟨(pyCapitalize raw).data.map (fun c => if c = '-' then ' ' else c)⟩

/-- Per-pair multiplier as the spec words it: the table entry, with `1`
substituted for a missing pair. -/
def pairMultiplier (target_type move_type : String) : ℚ :=
  (chartLookup target_type move_type).getD 1

/-- Effective speed as the spec words it: exactly half the base speed when
Paralyzed, the base speed otherwise. -/
def effectiveSpeedSpec (p : BattlePokemon) : ℚ :=
  if p.status = StatusEffect.PARALYSIS then (p.pokemon.stats.speed : ℚ) / 2
  else (p.pokemon.stats.speed : ℚ)

/-- Each usable move paired with the damage `_select_move` predicts for it,
with the random counter threaded exactly as the selection loop threads it. -/
def scoredMoves (s : RandStream) (a o : BattlePokemon) : ℕ → List Move → List (Move × ℤ)
  | _, [] => []
  | k, m :: t =>
    (m, (calcDamageS s k a o m).1.1) :: scoredMoves s a o (calcDamageS s k a o m).2 t

/-- The selection loop of `_select_move` viewed on the scored list alone. -/
def pickLoop : List (Move × ℤ) → Move × ℤ → Move × ℤ
  | [], acc => acc
  | (m, d) :: t, acc => pickLoop t (if d > acc.2 then (m, d) else acc)

/-- Both combatants' energy within bounds — the claimed battle invariant. -/
def EnergyInv (st : SimState) : Prop :=
  0 ≤ st.p1.current_energy ∧ st.p1.current_energy ≤ 100 ∧
  0 ≤ st.p2.current_energy ∧ st.p2.current_energy ≤ 100

/-- A random stream whose every draw is `0`: all status rolls succeed and
every `random.uniform(0.9, 1.1)` returns `0.9`. -/
def zeroStream : RandStream := ⟨fun _ => 0⟩

/-- Concrete damaging poison-type move used by the witness battles. -/
def jab : Move := ⟨"Poison jab", "poison", "physical", some 40, some 100, ""⟩

/-- Concrete attacker record for the witness battles. -/
def pkA : Pokemon := ⟨1, "A", ["normal"], ⟨30, 50, 10, 10, 10, 10⟩, [], [jab], [], "", "", none⟩

/-- Concrete moveless, 1-hp defender record for the witness battles. -/
def pkB : Pokemon := ⟨2, "B", ["normal"], ⟨1, 10, 10, 10, 10, 5⟩, [], [], [], "", "", none⟩

/-- Weak poison-type move: against `pkE` it deals exactly 1 damage. -/
def sludge : Move := ⟨"Sludge", "poison", "physical", some 40, some 100, ""⟩

/-- 2-hp record whose mirror match ends in a mutual poison faint on turn 1. -/
def pkE : Pokemon := ⟨3, "E", ["normal"], ⟨2, 1, 10, 1, 10, 7⟩, [], [sludge], [], "", "", none⟩

/-- A move carrying the data manager's rendering of `"self-destruct"`. -/
def sdMove : Move := ⟨parseMoveName "self-destruct", "normal", "physical", some 200, some 100, ""⟩

/-- A record knowing only `sdMove`. -/
def pkSD : Pokemon := ⟨4, "S", ["normal"], ⟨10, 10, 10, 10, 10, 10⟩, [], [sdMove], [], "", "", none⟩

/-- Battle-state wrapper of `pkSD` at full energy. -/
def bpSD : BattlePokemon := ⟨pkSD, 10, 100, StatusEffect.NONE⟩

/-- Battle-state wrapper of `pkA` used by witnesses. -/
def bpA : BattlePokemon := ⟨pkA, 30, 100, StatusEffect.NONE⟩

/-- Battle-state wrapper of `pkB` used by witnesses. -/
def bpB : BattlePokemon := ⟨pkB, 1, 100, StatusEffect.NONE⟩

/-- A burned defender, used to witness that statuses are not overwritten. -/
def bpBurned : BattlePokemon := ⟨pkB, 1, 100, StatusEffect.BURN⟩

/-- A plain normal-type move, used to witness the no-status-type case. -/
def tackle : Move := ⟨"Tackle", "normal", "physical", some 40, some 100, ""⟩

/- Core marks rational arithmetic `@[irreducible]`, which blocks the
definitional evaluation used by `decide` on the concrete witness battles;
restore the default transparency for this development. -/
attribute [local semireducible] Rat.add Rat.mul Rat.sub Rat.inv

/-- Python truncation and floor agree once clamped below by 1: a negative
argument truncates into `{0, …}` and floors below that, and both are then
clamped to 1. -/
theorem max_one_pyInt (q : ℚ) : max 1 (pyInt q) = max 1 ⌊q⌋ := by
  unfold pyInt
  split
  · rename_i h
    have h1 : (⌈q⌉ : ℤ) ≤ 0 := Int.ceil_le.mpr (by exact_mod_cast h.le)
    have h2 : ⌊q⌋ ≤ ⌈q⌉ := Int.floor_le_ceil q
    omega
  · rfl

/-- The effectiveness fold is multiplication by the product of the per-pair
multipliers (missing pair ↦ 1). -/
theorem get_type_eff_foldl (mt : String) (ts : List String) (acc : ℚ) :
    ts.foldl (fun multiplier t =>
      match chartLookup (pyLower t) (pyLower mt) with
      | some v => multiplier * v
      | none => multiplier) acc
    = acc * (ts.map (fun t => pairMultiplier (pyLower t) (pyLower mt))).prod := by
  induction ts generalizing acc with
  | nil => simp
  | cons t ts ih =>
    simp only [List.foldl_cons, List.map_cons, List.prod_cons]
    rw [ih]
    unfold pairMultiplier
    cases h : chartLookup (pyLower t) (pyLower mt) <;> (simp [h]; try ring)

/-- C5: `get_type_effectiveness` equals the product, over every defending
type tag in order, of the per-pair chart multiplier with 1 substituted for a
missing pair (so the empty list yields 1); it is 0 iff some defending type's
pair multiplier is 0. -/
theorem c5_type_effectiveness (mt : String) (ts : List String) :
    get_type_effectiveness mt ts =
      (ts.map (fun t => pairMultiplier (pyLower t) (pyLower mt))).prod ∧
    (get_type_effectiveness mt ts = 0 ↔
      ∃ t ∈ ts, pairMultiplier (pyLower t) (pyLower mt) = 0) ∧
    get_type_effectiveness mt [] = 1 := by
  have h : get_type_effectiveness mt ts =
      (ts.map (fun t => pairMultiplier (pyLower t) (pyLower mt))).prod := by
    unfold get_type_effectiveness
    rw [get_type_eff_foldl, one_mul]
  refine ⟨h, ?_, rfl⟩
  rw [h, List.prod_eq_zero_iff]
  simp [List.mem_map]

/-- C3: the damage function returns `(0, "")` exactly on absent/zero power,
and otherwise `max 1 ⌊power * (offense/(defense+50)) * 1.5 * e * r⌋` with the
offense stat halved for a burned physical attacker, together with the
effectiveness note determined by `e`. -/
theorem c3_damage_formula (a d : BattlePokemon) (mv : Move) (r : ℚ) :
    _calculate_damage a d mv r =
      if mv.power = none ∨ mv.power = some 0 then (0, "")
      else
        (max 1 ⌊((mv.power.getD 0 : ℚ) *
            ((if a.status = StatusEffect.BURN ∧ mv.category = "physical" then
                (if mv.category = "physical" then (a.pokemon.stats.attack : ℚ)
                 else (a.pokemon.stats.special_attack : ℚ)) / 2
              else
                (if mv.category = "physical" then (a.pokemon.stats.attack : ℚ)
                 else (a.pokemon.stats.special_attack : ℚ))) /
              ((if mv.category = "physical" then (d.pokemon.stats.defense : ℚ)
                else (d.pokemon.stats.special_defense : ℚ)) + 50)) * (3/2) *
            get_type_effectiveness mv.type (d.pokemon.types.map pyLower) * r)⌋,
         if 1 < get_type_effectiveness mv.type (d.pokemon.types.map pyLower) then
           "It\x27s super effective!"
         else if get_type_effectiveness mv.type (d.pokemon.types.map pyLower) < 1 then
           "It\x27s not very effective..."
         else "") := by
  unfold _calculate_damage
  split
  · rfl
  · simp only [max_one_pyInt]

/-- Membership in the candidate list unfolds to the two filter conditions
from `_select_move`. -/
theorem usable_moves_mem_iff (a : BattlePokemon) (m : Move) :
    m ∈ usable_moves a ↔
      m ∈ a.pokemon.moves_sample ∧
      _get_move_energy_cost m ≤ a.current_energy ∧
      pyLower m.name ∉ sacrificial_moves := by
  unfold usable_moves
  rw [List.mem_filter]
  simp [and_assoc]

/-- The scored list carries exactly the input moves, in order. -/
theorem scoredMoves_map_fst (s : RandStream) (a o : BattlePokemon) :
    ∀ (l : List Move) (k : ℕ), (scoredMoves s a o k l).map Prod.fst = l := by
  intro l
  induction l with
  | nil => intro k; rfl
  | cons m t ih => intro k; simp [scoredMoves, ih]

/-- The selection fold of `_select_move` computes `pickLoop` on the scored
list (first two accumulator components). -/
theorem sel_foldl_eq (s : RandStream) (a o : BattlePokemon) :
    ∀ (l : List Move) (best : Move) (maxd : ℤ) (k : ℕ),
      ((l.foldl (selStep s a o) (best, maxd, k)).1,
       (l.foldl (selStep s a o) (best, maxd, k)).2.1) =
        pickLoop (scoredMoves s a o k l) (best, maxd) := by
  intro l
  induction l with
  | nil => intro best maxd k; rfl
  | cons m t ih =>
    intro best maxd k
    simp only [List.foldl_cons, scoredMoves, pickLoop]
    unfold selStep
    by_cases h : (calcDamageS s k a o m).1.1 > maxd
    · simp only [if_pos h]
      exact ih m (calcDamageS s k a o m).1.1 (calcDamageS s k a o m).2
    · simp only [if_neg h]
      exact ih best maxd (calcDamageS s k a o m).2

/-- `pickLoop` either keeps its accumulator (when nothing strictly beats the
running maximum) or returns an entry that strictly beats the running maximum
and every earlier entry, and that no later entry strictly beats. -/
theorem pickLoop_cases :
    ∀ (l : List (Move × ℤ)) (acc : Move × ℤ),
      (pickLoop l acc = acc ∧ ∀ p ∈ l, p.2 ≤ acc.2) ∨
      (∃ l₁ d l₂, l = l₁ ++ ((pickLoop l acc).1, d) :: l₂ ∧
        (pickLoop l acc).2 = d ∧ acc.2 < d ∧
        (∀ p ∈ l₁, p.2 < d) ∧ (∀ p ∈ l₂, p.2 ≤ d)) := by
  intro l
  induction l with
  | nil => intro acc; exact Or.inl ⟨rfl, by simp⟩
  | cons hd t ih =>
    intro acc
    obtain ⟨m, d⟩ := hd
    show (pickLoop t (if d > acc.2 then (m, d) else acc) = acc ∧ _) ∨ _
    by_cases h : d > acc.2
    · rw [if_pos h]
      rcases ih (m, d) with ⟨heq, hall⟩ | ⟨l₁, d', l₂, hsplit, hd', hlt, hbefore, hafter⟩
      · refine Or.inr ⟨[], d, t, ?_, ?_, h, by simp, ?_⟩
        · simp only [pickLoop, if_pos h, heq]
          rfl
        · simp only [pickLoop, if_pos h, heq]
        · intro p hp
          simpa [heq] using hall p hp
      · refine Or.inr ⟨(m, d) :: l₁, d', l₂, ?_, ?_, lt_trans h hlt, ?_, hafter⟩
        · simp only [pickLoop, if_pos h]
          simpa using hsplit
        · simp only [pickLoop, if_pos h, hd']
        · intro p hp
          rcases List.mem_cons.mp hp with hh | hh
          · rw [hh]; exact hlt
          · exact hbefore p hh
    · rw [if_neg h]
      rcases ih acc with ⟨heq, hall⟩ | ⟨l₁, d', l₂, hsplit, hd', hlt, hbefore, hafter⟩
      · refine Or.inl ⟨?_, ?_⟩
        · simp only [pickLoop, if_neg h, heq]
        · intro p hp
          rcases List.mem_cons.mp hp with hh | hh
          · rw [hh]; exact not_lt.mp h
          · exact hall p hh
      · refine Or.inr ⟨(m, d) :: l₁, d', l₂, ?_, ?_, hlt, ?_, hafter⟩
        · simp only [pickLoop, if_neg h]
          simpa using hsplit
        · simp only [pickLoop, if_neg h, hd']
        · intro p hp
          rcases List.mem_cons.mp hp with hh | hh
          · rw [hh]; exact lt_of_le_of_lt (not_lt.mp h) hlt
          · exact hbefore p hh

/-- A selected move is one of the candidates. -/
theorem select_move_mem (s : RandStream) (k : ℕ) (a o : BattlePokemon) (m : Move)
    (h : (_select_move s k a o).1 = some m) : m ∈ usable_moves a := by
  unfold _select_move at h
  cases hu : usable_moves a with
  | nil => rw [hu] at h; exact absurd h (by simp)
  | cons first rest =>
    rw [hu] at h
    simp only at h
    have hfold := sel_foldl_eq s a o (first :: rest) first 0 k
    have hm : m = (pickLoop (scoredMoves s a o k (first :: rest)) (first, 0)).1 := by
      have := congrArg Prod.fst hfold
      simp only at this
      rw [← this]
      exact (Option.some_inj.mp h).symm
    obtain ⟨b, hb⟩ : ∃ b, (pickLoop (scoredMoves s a o k (first :: rest)) (first, 0)).1 = b :=
      ⟨_, rfl⟩
    rcases pickLoop_cases (scoredMoves s a o k (first :: rest)) (first, 0) with
      ⟨heq, _⟩ | ⟨l₁, d, l₂, hsplit, _, _, _, _⟩
    · rw [hm, heq]
      exact List.mem_cons_self first rest
    · rw [hb] at hsplit
      have hmem : b ∈ (scoredMoves s a o k (first :: rest)).map Prod.fst := by
        rw [hsplit]
        simp
      rw [scoredMoves_map_fst] at hmem
      rw [hm, hb]
      exact hmem

/-- The selector only returns moves it confirmed affordable. -/
theorem select_move_cost (s : RandStream) (k : ℕ) (a o : BattlePokemon) (m : Move)
    (h : (_select_move s k a o).1 = some m) :
    _get_move_energy_cost m ≤ a.current_energy :=
  ((usable_moves_mem_iff a m).mp (select_move_mem s k a o m h)).2.1

/-- C4: the selector returns `none` iff no move is affordable and
non-sacrificial; otherwise it returns the running-max winner over the
candidates in original order, starting from maximum 0 with the first
candidate as default, so an all-zero field yields the first candidate, and
the chosen entry strictly beats every earlier prediction and is not strictly
beaten by any later one. -/
theorem c4_move_selection (s : RandStream) (k : ℕ) (a o : BattlePokemon) :
    ((_select_move s k a o).1 = none ↔ usable_moves a = []) ∧
    (∀ first rest, usable_moves a = first :: rest →
      ∃ m, (_select_move s k a o).1 = some m ∧
        ((m = first ∧ ∀ p ∈ scoredMoves s a o k (usable_moves a), p.2 ≤ 0) ∨
         (∃ l₁ d l₂, scoredMoves s a o k (usable_moves a) = l₁ ++ (m, d) :: l₂ ∧
           0 < d ∧ (∀ p ∈ l₁, p.2 < d) ∧ (∀ p ∈ l₂, p.2 ≤ d)))) := by
  constructor
  · unfold _select_move
    cases hu : usable_moves a with
    | nil => simp
    | cons first rest => simp
  · intro first rest h
    have hsel : (_select_move s k a o).1 =
        some ((first :: rest).foldl (selStep s a o) (first, 0, k)).1 := by
      unfold _select_move
      rw [h]
    have hm1 : ((first :: rest).foldl (selStep s a o) (first, 0, k)).1 =
        (pickLoop (scoredMoves s a o k (first :: rest)) (first, 0)).1 :=
      congrArg Prod.fst (sel_foldl_eq s a o (first :: rest) first 0 k)
    rw [h]
    obtain ⟨b, hb⟩ : ∃ b, (pickLoop (scoredMoves s a o k (first :: rest)) (first, 0)).1 = b :=
      ⟨_, rfl⟩
    refine ⟨b, by rw [hsel, hm1, hb], ?_⟩
    rcases pickLoop_cases (scoredMoves s a o k (first :: rest)) (first, 0) with
      ⟨heq, hall⟩ | ⟨l₁, d, l₂, hsplit, _, hlt, hbefore, hafter⟩
    · left
      constructor
      · rw [← hb, heq]
      · simpa using hall
    · right
      rw [hb] at hsplit
      exact ⟨l₁, d, l₂, hsplit, hlt, hbefore, hafter⟩

/-- C7: a non-Healthy status is never overwritten (the status engine returns
`none` and leaves the defender untouched), a Healthy defender can only
acquire the status matching the move's elemental type, and any other move
type changes nothing. -/
theorem c7_status_no_overwrite (s : RandStream) (k : ℕ) (mv : Move) (d : BattlePokemon) :
    (d.status ≠ StatusEffect.NONE → _apply_status_effect s k mv d = (none, d, k)) ∧
    ((_apply_status_effect s k mv d).2.1 = d ∨
      (d.status = StatusEffect.NONE ∧
       (_apply_status_effect s k mv d).2.1.pokemon = d.pokemon ∧
       (_apply_status_effect s k mv d).2.1.current_hp = d.current_hp ∧
       (_apply_status_effect s k mv d).2.1.current_energy = d.current_energy ∧
       ((pyLower mv.type = "poison" ∧
           (_apply_status_effect s k mv d).2.1.status = StatusEffect.POISON) ∨
        (pyLower mv.type = "fire" ∧
           (_apply_status_effect s k mv d).2.1.status = StatusEffect.BURN) ∨
        (pyLower mv.type = "electric" ∧
           (_apply_status_effect s k mv d).2.1.status = StatusEffect.PARALYSIS)))) ∧
    (pyLower mv.type ∉ (["poison", "fire", "electric"] : List String) →
      _apply_status_effect s k mv d = (none, d, k)) := by
  unfold _apply_status_effect
  by_cases hs : d.status ≠ StatusEffect.NONE
  · rw [if_pos hs]
    exact ⟨fun _ => rfl, Or.inl rfl, fun _ => rfl⟩
  · rw [if_neg hs]
    push_neg at hs
    refine ⟨fun hc => absurd hs hc, ?_, ?_⟩
    · by_cases h1 : pyLower mv.type = "poison"
      · rw [if_pos h1]
        by_cases h2 : s.rand k < 3/10
        · rw [if_pos h2]
          exact Or.inr ⟨hs, rfl, rfl, rfl, Or.inl ⟨h1, rfl⟩⟩
        · rw [if_neg h2]
          exact Or.inl rfl
      · rw [if_neg h1]
        by_cases h3 : pyLower mv.type = "fire"
        · rw [if_pos h3]
          by_cases h4 : s.rand k < 1/10
          · rw [if_pos h4]
            exact Or.inr ⟨hs, rfl, rfl, rfl, Or.inr (Or.inl ⟨h3, rfl⟩)⟩
          · rw [if_neg h4]
            exact Or.inl rfl
        · rw [if_neg h3]
          by_cases h5 : pyLower mv.type = "electric"
          · rw [if_pos h5]
            by_cases h6 : s.rand k < 1/10
            · rw [if_pos h6]
              exact Or.inr ⟨hs, rfl, rfl, rfl, Or.inr (Or.inr ⟨h5, rfl⟩)⟩
            · rw [if_neg h6]
              exact Or.inl rfl
          · rw [if_neg h5]
            exact Or.inl rfl
    · intro hnotin
      simp only [List.mem_cons, List.not_mem_nil, or_false, not_or] at hnotin
      rw [if_neg hnotin.1, if_neg hnotin.2.1, if_neg hnotin.2.2]

/-- The energy cost of any move is at least 10. -/
theorem energy_cost_ge (mv : Move) : 10 ≤ _get_move_energy_cost mv := by
  unfold _get_move_energy_cost
  cases mv.power with
  | none => norm_num
  | some p =>
    dsimp only
    split_ifs <;> norm_num

/-- The status engine never touches the defender's creature record. -/
theorem apply_status_pokemon (s : RandStream) (k : ℕ) (mv : Move) (d : BattlePokemon) :
    (_apply_status_effect s k mv d).2.1.pokemon = d.pokemon := by
  unfold _apply_status_effect
  split_ifs <;> rfl

/-- The status engine never touches the defender's hp. -/
theorem apply_status_hp (s : RandStream) (k : ℕ) (mv : Move) (d : BattlePokemon) :
    (_apply_status_effect s k mv d).2.1.current_hp = d.current_hp := by
  unfold _apply_status_effect
  split_ifs <;> rfl

/-- The status engine never touches the defender's energy. -/
theorem apply_status_energy (s : RandStream) (k : ℕ) (mv : Move) (d : BattlePokemon) :
    (_apply_status_effect s k mv d).2.1.current_energy = d.current_energy := by
  unfold _apply_status_effect
  split_ifs <;> rfl

/-- Post-turn ticks never touch the creature record. -/
theorem post_turn_pokemon (p : BattlePokemon) (log : List String) :
    (_handle_post_turn_status p log).1.pokemon = p.pokemon := by
  unfold _handle_post_turn_status
  split_ifs <;> rfl

/-- Post-turn ticks never touch the energy. -/
theorem post_turn_energy (p : BattlePokemon) (log : List String) :
    (_handle_post_turn_status p log).1.current_energy = p.current_energy := by
  unfold _handle_post_turn_status
  split_ifs <;> rfl

/-- `restStep` preserves the turn counter. -/
theorem restStep_turn (st : SimState) (b : Bool) (log1 : List String) (k2 : ℕ) :
    (restStep st b log1 k2).1.turn = st.turn := by
  cases b <;> simp [restStep, sideSet]

/-- `attackStep` preserves the turn counter. -/
theorem attackStep_turn (s : RandStream) (st : SimState) (b : Bool)
    (log1 : List String) (k2 : ℕ) (mv : Move) :
    (attackStep s st b log1 k2 mv).1.turn = st.turn := by
  cases b <;>
    (simp only [attackStep]
     split <;> simp [sideSet, sideGet])

/-- `doAction` preserves the turn counter. -/
theorem doAction_turn (s : RandStream) (st : SimState) (b : Bool) :
    (doAction s st b).1.turn = st.turn := by
  unfold doAction
  split
  · rfl
  · split
    · rfl
    · split
      · exact restStep_turn st b _ _
      · exact attackStep_turn s st b _ _ _

/-- `restStep` preserves both creature records. -/
theorem restStep_pokemon (st : SimState) (b : Bool) (log1 : List String) (k2 : ℕ) :
    (restStep st b log1 k2).1.p1.pokemon = st.p1.pokemon ∧
    (restStep st b log1 k2).1.p2.pokemon = st.p2.pokemon := by
  cases b <;> simp [restStep, sideSet, sideGet, restAction]

/-- `attackStep` preserves both creature records. -/
theorem attackStep_pokemon (s : RandStream) (st : SimState) (b : Bool)
    (log1 : List String) (k2 : ℕ) (mv : Move) :
    (attackStep s st b log1 k2 mv).1.p1.pokemon = st.p1.pokemon ∧
    (attackStep s st b log1 k2 mv).1.p2.pokemon = st.p2.pokemon := by
  cases b <;>
    (simp only [attackStep]
     split <;>
       (constructor <;>
          (simp [sideSet, sideGet, apply_status_pokemon, applyDamage, spendEnergy]
           try (split <;> rfl))))

/-- `doAction` preserves both creature records. -/
theorem doAction_pokemon (s : RandStream) (st : SimState) (b : Bool) :
    (doAction s st b).1.p1.pokemon = st.p1.pokemon ∧
    (doAction s st b).1.p2.pokemon = st.p2.pokemon := by
  unfold doAction
  split
  · exact ⟨rfl, rfl⟩
  · split
    · exact ⟨rfl, rfl⟩
    · split
      · exact restStep_pokemon st b _ _
      · exact attackStep_pokemon s st b _ _ _

/-- `restStep` keeps both energies within bounds. -/
theorem restStep_energy (st : SimState) (b : Bool) (log1 : List String) (k2 : ℕ)
    (h : EnergyInv st) : EnergyInv (restStep st b log1 k2).1 := by
  obtain ⟨h1, h2, h3, h4⟩ := h
  cases b <;>
    (simp [restStep, sideSet, sideGet, restAction, EnergyInv]
     omega)

/-- `attackStep` keeps both energies within bounds, provided the move's cost
is at most the attacker's energy (which the selector guarantees). -/
theorem attackStep_energy (s : RandStream) (st : SimState) (b : Bool)
    (log1 : List String) (k2 : ℕ) (mv : Move)
    (hcost : _get_move_energy_cost mv ≤ (sideGet st b).current_energy)
    (h : EnergyInv st) : EnergyInv (attackStep s st b log1 k2 mv).1 := by
  obtain ⟨h1, h2, h3, h4⟩ := h
  have hge := energy_cost_ge mv
  cases b <;>
    (simp [sideGet] at hcost
     simp only [attackStep]
     split <;>
       (refine ⟨?_, ?_, ?_, ?_⟩ <;>
          (simp [sideSet, sideGet, apply_status_energy, applyDamage, spendEnergy]
           try (split <;> simp [spendEnergy])
           all_goals omega)))

/-- `doAction` keeps both energies within bounds. -/
theorem doAction_energy (s : RandStream) (st : SimState) (b : Bool)
    (h : EnergyInv st) : EnergyInv (doAction s st b).1 := by
  unfold doAction
  split
  · exact h
  · split
    · exact h
    · split
      · exact restStep_energy st b _ _ h
      · rename_i hsel
        refine attackStep_energy s st b _ _ _ ?_ h
        exact select_move_cost s _ (sideGet st b) (sideGet st (!b)) _ (by rw [hsel])

/-- Sided form of `doAction_pokemon`. -/
theorem doAction_pokemon1 (s : RandStream) (st : SimState) (b : Bool) :
    (doAction s st b).1.p1.pokemon = st.p1.pokemon :=
  (doAction_pokemon s st b).1

/-- Sided form of `doAction_pokemon`. -/
theorem doAction_pokemon2 (s : RandStream) (st : SimState) (b : Bool) :
    (doAction s st b).1.p2.pokemon = st.p2.pokemon :=
  (doAction_pokemon s st b).2

/-- `postTurnPhase` preserves the turn counter. -/
theorem postTurnPhase_turn (st : SimState) : (postTurnPhase st).turn = st.turn := rfl

/-- `postTurnPhase` preserves `p1`'s creature record. -/
theorem postTurnPhase_pokemon1 (st : SimState) :
    (postTurnPhase st).p1.pokemon = st.p1.pokemon :=
  post_turn_pokemon st.p1 st.log

/-- `postTurnPhase` preserves `p2`'s creature record. -/
theorem postTurnPhase_pokemon2 (st : SimState) :
    (postTurnPhase st).p2.pokemon = st.p2.pokemon :=
  post_turn_pokemon st.p2 _

/-- `postTurnPhase` preserves both energies. -/
theorem postTurnPhase_energy (st : SimState) (h : EnergyInv st) :
    EnergyInv (postTurnPhase st) := by
  obtain ⟨h1, h2, h3, h4⟩ := h
  unfold postTurnPhase EnergyInv
  dsimp only
  simp only [post_turn_energy]
  exact ⟨h1, h2, h3, h4⟩

/-- `roundActions` preserves the turn counter. -/
theorem roundActions_turn (s : RandStream) (st : SimState) (first : Bool) :
    (roundActions s st first).turn = st.turn := by
  unfold roundActions
  dsimp only
  split
  · exact doAction_turn s st first
  · exact (doAction_turn s (doAction s st first).1 (!first)).trans (doAction_turn s st first)

/-- `roundActions` preserves `p1`'s creature record. -/
theorem roundActions_pokemon1 (s : RandStream) (st : SimState) (first : Bool) :
    (roundActions s st first).p1.pokemon = st.p1.pokemon := by
  unfold roundActions
  dsimp only
  split
  · exact doAction_pokemon1 s st first
  · exact (doAction_pokemon1 s (doAction s st first).1 (!first)).trans
      (doAction_pokemon1 s st first)

/-- `roundActions` preserves `p2`'s creature record. -/
theorem roundActions_pokemon2 (s : RandStream) (st : SimState) (first : Bool) :
    (roundActions s st first).p2.pokemon = st.p2.pokemon := by
  unfold roundActions
  dsimp only
  split
  · exact doAction_pokemon2 s st first
  · exact (doAction_pokemon2 s (doAction s st first).1 (!first)).trans
      (doAction_pokemon2 s st first)

/-- `roundActions` preserves the energy bounds. -/
theorem roundActions_energy (s : RandStream) (st : SimState) (first : Bool)
    (h : EnergyInv st) : EnergyInv (roundActions s st first) := by
  unfold roundActions
  dsimp only
  split
  · exact doAction_energy s st first h
  · exact doAction_energy s (doAction s st first).1 (!first) (doAction_energy s st first h)

/-- `roundEnd` preserves the turn counter. -/
theorem roundEnd_turn (st : SimState) : (roundEnd st).turn = st.turn := by
  unfold roundEnd
  split
  · exact postTurnPhase_turn st
  · rfl

/-- `roundEnd` preserves `p1`'s creature record. -/
theorem roundEnd_pokemon1 (st : SimState) : (roundEnd st).p1.pokemon = st.p1.pokemon := by
  unfold roundEnd
  split
  · exact postTurnPhase_pokemon1 st
  · rfl

/-- `roundEnd` preserves `p2`'s creature record. -/
theorem roundEnd_pokemon2 (st : SimState) : (roundEnd st).p2.pokemon = st.p2.pokemon := by
  unfold roundEnd
  split
  · exact postTurnPhase_pokemon2 st
  · rfl

/-- `roundEnd` preserves the energy bounds. -/
theorem roundEnd_energy (st : SimState) (h : EnergyInv st) : EnergyInv (roundEnd st) := by
  unfold roundEnd
  split
  · exact postTurnPhase_energy st h
  · exact h

/-- Each round increments the turn counter by exactly one. -/
theorem doRound_turn (s : RandStream) (st : SimState) :
    (doRound s st).turn = st.turn + 1 :=
  (roundEnd_turn (roundActions s (roundIntro st) (roundFirstIsP1 st.p1 st.p2))).trans
    (roundActions_turn s (roundIntro st) (roundFirstIsP1 st.p1 st.p2))

/-- Rounds never modify `p1`'s creature record. -/
theorem doRound_pokemon1 (s : RandStream) (st : SimState) :
    (doRound s st).p1.pokemon = st.p1.pokemon :=
  (roundEnd_pokemon1 (roundActions s (roundIntro st) (roundFirstIsP1 st.p1 st.p2))).trans
    (roundActions_pokemon1 s (roundIntro st) (roundFirstIsP1 st.p1 st.p2))

/-- Rounds never modify `p2`'s creature record. -/
theorem doRound_pokemon2 (s : RandStream) (st : SimState) :
    (doRound s st).p2.pokemon = st.p2.pokemon :=
  (roundEnd_pokemon2 (roundActions s (roundIntro st) (roundFirstIsP1 st.p1 st.p2))).trans
    (roundActions_pokemon2 s (roundIntro st) (roundFirstIsP1 st.p1 st.p2))

/-- Rounds preserve the energy bounds. -/
theorem doRound_energy (s : RandStream) (st : SimState) (h : EnergyInv st) :
    EnergyInv (doRound s st) :=
  roundEnd_energy (roundActions s (roundIntro st) (roundFirstIsP1 st.p1 st.p2))
    (roundActions_energy s (roundIntro st) (roundFirstIsP1 st.p1 st.p2) h)

/-- The loop keeps the turn counter at most 50. -/
theorem simLoop_turn_le (s : RandStream) :
    ∀ (fuel : ℕ) (st : SimState), st.turn ≤ 50 → (simLoop s fuel st).turn ≤ 50 := by
  intro fuel
  induction fuel with
  | zero => intro st h; exact h
  | succ n ih =>
    intro st h
    unfold simLoop
    split
    · rename_i hc
      refine ih _ ?_
      rw [doRound_turn]
      omega
    · exact h

/-- The loop never modifies either creature record. -/
theorem simLoop_pokemon (s : RandStream) :
    ∀ (fuel : ℕ) (st : SimState),
      (simLoop s fuel st).p1.pokemon = st.p1.pokemon ∧
      (simLoop s fuel st).p2.pokemon = st.p2.pokemon := by
  intro fuel
  induction fuel with
  | zero => intro st; exact ⟨rfl, rfl⟩
  | succ n ih =>
    intro st
    unfold simLoop
    split
    · exact ⟨((ih _).1).trans (doRound_pokemon1 s st), ((ih _).2).trans (doRound_pokemon2 s st)⟩
    · exact ⟨rfl, rfl⟩

/-- The loop preserves the energy bounds. -/
theorem simLoop_energy (s : RandStream) :
    ∀ (fuel : ℕ) (st : SimState), EnergyInv st → EnergyInv (simLoop s fuel st) := by
  intro fuel
  induction fuel with
  | zero => intro st h; exact h
  | succ n ih =>
    intro st h
    unfold simLoop
    split
    · exact ih _ (doRound_energy s st h)
    · exact h

/-- The battle loop leaves the input creature records untouched. -/
theorem final_state_pokemon (s : RandStream) (a b : Pokemon) :
    (final_state s a b).p1.pokemon = a ∧ (final_state s a b).p2.pokemon = b :=
  simLoop_pokemon s 50 (initState a b)

/-- C1: `run_simulation` is a total function of its two records and the
random stream; it always returns the newline-joined log, whose in-band tail
is the battle-over header, the verdict line (naming one of the two
combatants or `Draw`) and the final-state block — every outcome is log
content, never an error. -/
theorem c1_total_log_verdict (s : RandStream) (a b : Pokemon) :
    run_simulation s a b = String.intercalate "\n" ((final_state s a b).log ++
      ["--- Battle Over! ---",
       "The winner is: " ++ winner_of_state (final_state s a b) ++ "!"] ++
      finalBlock (final_state s a b)) ∧
    (winner_of_state (final_state s a b) = a.name ∨
     winner_of_state (final_state s a b) = b.name ∨
     winner_of_state (final_state s a b) = "Draw") := by
  refine ⟨rfl, ?_⟩
  unfold winner_of_state
  split_ifs
  · left
    rw [(final_state_pokemon s a b).1]
  · right; left
    rw [(final_state_pokemon s a b).2]
  · right; right; rfl

/-- C2: the battle loop runs at most 50 rounds, and the verdict is `Draw`
both when neither combatant has fainted at the end (the 50-round cap) and
when both have fainted. -/
theorem c2_round_cap_draw (s : RandStream) (a b : Pokemon) :
    (final_state s a b).turn ≤ 50 ∧
    ((0 < (final_state s a b).p1.current_hp ∧ 0 < (final_state s a b).p2.current_hp) ∨
      ((final_state s a b).p1.current_hp ≤ 0 ∧ (final_state s a b).p2.current_hp ≤ 0) →
      winner_of_state (final_state s a b) = "Draw") := by
  constructor
  · exact simLoop_turn_le s 50 (initState a b) (Nat.zero_le 50)
  · intro h
    unfold winner_of_state
    rcases h with ⟨h1, h2⟩ | ⟨h1, h2⟩ <;>
      (split_ifs with g1 g2 <;> first | rfl | (exfalso; omega))

/-- C2 witness: the mirror match of `pkE` ends with both combatants fainted
on turn 1 and a `Draw` verdict. -/
theorem c2_round_cap_draw_witness :
    (final_state zeroStream pkE pkE).turn ≤ 50 ∧
    winner_of_state (final_state zeroStream pkE pkE) = "Draw" :=
  ⟨(c2_round_cap_draw zeroStream pkE pkE).1,
   (c2_round_cap_draw zeroStream pkE pkE).2 (Or.inr ⟨by decide, by decide⟩)⟩

/-- C6: starting from energy 100, both combatants' energy stays within
`[0, 100]` after every number of rounds of every battle: deduction happens
only for selector-approved affordable moves and resting is capped at 100. -/
theorem c6_energy_bounds (s : RandStream) (a b : Pokemon) (fuel : ℕ) :
    EnergyInv (simLoop s fuel (initState a b)) :=
  simLoop_energy s fuel (initState a b)
    ⟨by norm_num [initState], by norm_num [initState],
     by norm_num [initState], by norm_num [initState]⟩

/-- C8: `p1` acts first exactly when its effective speed (half the base
speed when Paralyzed, the base speed otherwise) is at least `p2`'s — ties
favor `p1` — and the stored creature records, hence the stored speed stats,
are never modified by the battle loop. -/
theorem c8_turn_order :
    (∀ p1 p2 : BattlePokemon,
      roundFirstIsP1 p1 p2 = true ↔ effectiveSpeedSpec p2 ≤ effectiveSpeedSpec p1) ∧
    (∀ (s : RandStream) (fuel : ℕ) (st : SimState),
      (simLoop s fuel st).p1.pokemon = st.p1.pokemon ∧
      (simLoop s fuel st).p2.pokemon = st.p2.pokemon) := by
  constructor
  · intro p1 p2
    unfold roundFirstIsP1 effectiveSpeedSpec
    rw [decide_eq_true_iff]
    split_ifs <;> constructor <;> intro h <;> linarith
  · intro s fuel st
    exact simLoop_pokemon s fuel st

/-- C4 witness: with `bpA`'s single usable move the selector picks it. -/
theorem c4_move_selection_witness :
    usable_moves bpA = [jab] ∧
    ∃ m, (_select_move zeroStream 0 bpA bpB).1 = some m ∧
      ((m = jab ∧ ∀ p ∈ scoredMoves zeroStream bpA bpB 0 (usable_moves bpA), p.2 ≤ 0) ∨
       (∃ l₁ d l₂, scoredMoves zeroStream bpA bpB 0 (usable_moves bpA) = l₁ ++ (m, d) :: l₂ ∧
         0 < d ∧ (∀ p ∈ l₁, p.2 < d) ∧ (∀ p ∈ l₂, p.2 ≤ d))) :=
  ⟨by decide, (c4_move_selection zeroStream 0 bpA bpB).2 jab [] (by decide)⟩

/-- C7 witness: a burned defender keeps its status untouched, and a
normal-type move against a healthy defender changes nothing. -/
theorem c7_status_no_overwrite_witness :
    _apply_status_effect zeroStream 0 tackle bpBurned = (none, bpBurned, 0) ∧
    _apply_status_effect zeroStream 0 tackle bpA = (none, bpA, 0) :=
  ⟨(c7_status_no_overwrite zeroStream 0 tackle bpBurned).1 (by decide),
   (c7_status_no_overwrite zeroStream 0 tackle bpA).2.2 (by decide)⟩

/-- C9: the data manager renders a hyphenated source move name with the
hyphen replaced by a space, so its lowercased form never equals any of the
hyphenated sacrificial/self-KO comparison strings; such moves pass the
selector's filter (energy permitting) and cannot trigger the self-KO branch;
the unhyphenated "explosion" is the one name that still matches both. -/
theorem c9_hyphen_names (raw : String) (h : '-' ∈ raw.data) :
    pyLower (parseMoveName raw) ∉ sacrificial_moves ∧
    pyLower (parseMoveName raw) ∉ selfKONames ∧
    (∀ (a : BattlePokemon) (m : Move), m.name = parseMoveName raw →
      m ∈ a.pokemon.moves_sample → _get_move_energy_cost m ≤ a.current_energy →
      m ∈ usable_moves a) ∧
    pyLower (parseMoveName "explosion") = "explosion" ∧
    "explosion" ∈ sacrificial_moves ∧ "explosion" ∈ selfKONames := by
  have hdash : '-' ∈ (pyCapitalize raw).data := by
    rcases hr : raw.data with _ | ⟨c, rest⟩
    · rw [hr] at h
      exact absurd h (List.not_mem_nil _)
    · rw [hr] at h
      unfold pyCapitalize
      rw [hr]
      rcases List.mem_cons.mp h with hc | hc
      · refine List.mem_cons.mpr (Or.inl ?_)
        rw [← hc]
        decide
      · refine List.mem_cons.mpr (Or.inr ?_)
        have h2 := List.mem_map_of_mem Char.toLower hc
        rw [show Char.toLower (Char.ofNat 45) = Char.ofNat 45 from by decide] at h2
        exact h2
  have hspace : ' ' ∈ (pyLower (parseMoveName raw)).data := by
    show ' ' ∈ ((pyCapitalize raw).data.map
      (fun c => if c = '-' then ' ' else c)).map Char.toLower
    have h1 := List.mem_map_of_mem (fun c => if c = '-' then ' ' else c) hdash
    have h1b : ' ' ∈ (pyCapitalize raw).data.map (fun c => if c = '-' then ' ' else c) := by
      simpa using h1
    have h2 := List.mem_map_of_mem Char.toLower h1b
    rw [show Char.toLower (Char.ofNat 32) = Char.ofNat 32 from by decide] at h2
    exact h2
  have hne : ∀ t : String, ' ' ∉ t.data → pyLower (parseMoveName raw) ≠ t := by
    intro t hns heq
    rw [heq] at hspace
    exact hns hspace
  have hnot1 : pyLower (parseMoveName raw) ∉ sacrificial_moves := by
    intro hmem
    simp only [sacrificial_moves, List.mem_cons, List.not_mem_nil, or_false] at hmem
    rcases hmem with h1 | h1 | h1 <;> exact hne _ (by decide) h1
  have hnot2 : pyLower (parseMoveName raw) ∉ selfKONames := by
    intro hmem
    simp only [selfKONames, List.mem_cons, List.not_mem_nil, or_false] at hmem
    rcases hmem with h1 | h1 <;> exact hne _ (by decide) h1
  refine ⟨hnot1, hnot2, ?_, by decide, by decide, by decide⟩
  intro a m hname hmem hcost
  rw [usable_moves_mem_iff]
  refine ⟨hmem, hcost, ?_⟩
  rw [hname]
  exact hnot1

/-- C9 witness: the rendering of `"self-destruct"` escapes both comparison
lists, and a record holding it keeps it selectable. -/
theorem c9_hyphen_names_witness :
    pyLower (parseMoveName "self-destruct") ∉ sacrificial_moves ∧
    pyLower (parseMoveName "self-destruct") ∉ selfKONames ∧
    sdMove ∈ usable_moves bpSD :=
  ⟨(c9_hyphen_names "self-destruct" (by decide)).1,
   (c9_hyphen_names "self-destruct" (by decide)).2.1,
   (c9_hyphen_names "self-destruct" (by decide)).2.2.1 bpSD sdMove rfl
     (by decide) (by decide)⟩

/-- C10: in the concrete battle of `pkA` against the 1-hp `pkB` (all random
draws 0), the killing poison-type hit still rolls the on-hit status: the
fainted defender ends the battle Poisoned at 0 hp, and the poison message is
logged immediately before the faint message. -/
theorem c10_status_after_faint :
    (final_state zeroStream pkA pkB).p2.status = StatusEffect.POISON ∧
    (final_state zeroStream pkA pkB).p2.current_hp = 0 ∧
    (final_state zeroStream pkA pkB).log =
      ["A battle is about to begin between A and B!", "", "--- Turn 1 ---",
       "(A: 30 HP, 100 E, Healthy) vs (B: 1 HP, 100 E, Healthy)",
       "A used Poison jab! It dealt 45 damage. "] ++
      ["B was poisoned!", "B has fainted!"] ++ [""] :=
  ⟨by decide, by decide, by decide⟩

end PokeBattle
